import Mathlib

/-!
# PhotoPackager — verification of the job orchestration and image pipeline

Shallow embedding of the PhotoPackager core (src/job.py, src/filesystem.py,
src/image_processing.py, src/config.py) together with theorems settling the
frozen specification claims.  Definitions are translated from the Python
source; where a definition instead follows the specification's words (for
comparison against the source, or because the function the source calls does
not exist in the source tree) its doc comment says so explicitly.
-/

namespace PhotoPackager

/-! ## Configuration constants (src/config.py) -/

/-- `config.FOLDER_NAMES` (src/config.py:107-128), as an association list. -/
def FOLDER_NAMES : List (String × String) :=
  [("top_level_readme", "README.txt"),
   ("log_file", "photopackager_run.log"),
   ("raw", "RAW Files"),
   ("export", "Export Files"),
   ("optimized", "Optimized Files"),
   ("compressed", "Compressed Files"),
   ("raw_readme", "README.txt"),
   ("export_originals", "Export Originals"),
   ("optimized_jpg", "Optimized JPGs"),
   ("optimized_webp", "Optimized WebPs"),
   ("compressed_jpg", "Compressed JPGs"),
   ("compressed_webp", "Compressed WebPs"),
   ("zip_export", "Zipped Export Files.zip"),
   ("zip_optimized", "Zipped Optimized Files.zip"),
   ("zip_compressed", "Zipped Compressed Files.zip")]

/-- Lookup in `config.FOLDER_NAMES` (`config.FOLDER_NAMES[key]` in the source). -/
def folderName (key : String) : String :=
  (((FOLDER_NAMES.filter (fun p => p.1 == key)).head?).map Prod.snd).getD ""

/-- `config.COMPRESSED_TARGET_PIXELS` (src/config.py:143). -/
def COMPRESSED_TARGET_PIXELS : ℕ := 2000000

/-- `config.COMPRESSED_QUALITY_BASE` (src/config.py:149). -/
def COMPRESSED_QUALITY_BASE : ℤ := 60

/-- `config.OPTIMIZED_QUALITY` (src/config.py:137). -/
def OPTIMIZED_QUALITY : ℤ := 90

/-! ## Quality Adapter (src/image_processing.py:100-174, `_compute_adaptive_quality`)

The Python function converts the image to grayscale and reads the standard
deviation of the luminance channel; the arithmetic on the resulting number is
embedded here with the measured standard deviation as the input.  `stddev`
is the value held by the Python variable of the same name after lines 135-137
(the measured value, or the 50.0 default when the statistics are degenerate).
-/

/-- The three-band offset and clamp of `_compute_adaptive_quality`
(src/image_processing.py:146-163). -/
def computeAdaptiveQuality (stddev : ℚ) (base_quality : ℤ) : ℤ :=
  let quality_offset : ℤ :=
    if stddev < 30 then -10
    else if 60 < stddev then 5
    else 0
  let adjusted_quality : ℤ := base_quality + quality_offset
  max 30 (min 95 adjusted_quality)

/-! ## EXIF Policy Engine (src/image_processing.py:177-330, `_strip_selected_exif`)

EXIF blocks are embedded at the level piexif exposes them: IFD-keyed groups of
(tag id, value) pairs.  Values are abstracted as natural numbers; tag ids are
the concrete piexif constants.  The embedding covers the code path where
piexif is available and `piexif.load`/`piexif.dump` succeed.
-/

/-- piexif.ImageIFD.DateTime -/
def ImageIFD_DateTime : ℕ := 306
/-- piexif.ExifIFD.DateTimeOriginal -/
def ExifIFD_DateTimeOriginal : ℕ := 36867
/-- piexif.ExifIFD.DateTimeDigitized -/
def ExifIFD_DateTimeDigitized : ℕ := 36868
/-- piexif.ImageIFD.Make -/
def ImageIFD_Make : ℕ := 271
/-- piexif.ImageIFD.Model -/
def ImageIFD_Model : ℕ := 272
/-- piexif.ImageIFD.Software -/
def ImageIFD_Software : ℕ := 305
/-- piexif.ImageIFD.ProcessingSoftware -/
def ImageIFD_ProcessingSoftware : ℕ := 11
/-- piexif.ExifIFD.LensSpecification -/
def ExifIFD_LensSpecification : ℕ := 42034
/-- piexif.ExifIFD.LensMake -/
def ExifIFD_LensMake : ℕ := 42035
/-- piexif.ExifIFD.LensModel -/
def ExifIFD_LensModel : ℕ := 42036
/-- piexif.ExifIFD.SubSecTime -/
def ExifIFD_SubSecTime : ℕ := 37520
/-- piexif.ExifIFD.SubSecTimeOriginal -/
def ExifIFD_SubSecTimeOriginal : ℕ := 37521
/-- piexif.ExifIFD.SubSecTimeDigitized -/
def ExifIFD_SubSecTimeDigitized : ℕ := 37522

/-- A parsed EXIF block: the 0th and Exif IFDs as (tag id, value) pairs,
as produced by `piexif.load` (the other IFDs are untouched by the code). -/
structure ExifDict where
  zeroth : List (ℕ × ℕ)
  exifIFD : List (ℕ × ℕ)
deriving DecidableEq, Repr

/-- `date_time_tags_0th` (src/image_processing.py:239). -/
def date_time_tags_0th : List ℕ := [ImageIFD_DateTime]

/-- `date_time_tags_exif` (src/image_processing.py:240-244); the SubSec* and
OffsetTime* tags appear only in a comment there and are not in the list. -/
def date_time_tags_exif : List ℕ := [ExifIFD_DateTimeOriginal, ExifIFD_DateTimeDigitized]

/-- `camera_tags_0th` (src/image_processing.py:245-249); ProcessingSoftware is
not in the list. -/
def camera_tags_0th : List ℕ := [ImageIFD_Make, ImageIFD_Model, ImageIFD_Software]

/-- `camera_tags_exif` (src/image_processing.py:250-255). -/
def camera_tags_exif : List ℕ := [ExifIFD_LensMake, ExifIFD_LensModel, ExifIFD_LensSpecification]

/-- `tags_to_remove_0th` as assembled at src/image_processing.py:258-268. -/
def tags_to_remove_0th (exif_option : String) : List ℕ :=
  (if exif_option = "date" ∨ exif_option = "both" then date_time_tags_0th else []) ++
  (if exif_option = "camera" ∨ exif_option = "both" then camera_tags_0th else [])

/-- `tags_to_remove_exif` as assembled at src/image_processing.py:258-268. -/
def tags_to_remove_exif (exif_option : String) : List ℕ :=
  (if exif_option = "date" ∨ exif_option = "both" then date_time_tags_exif else []) ++
  (if exif_option = "camera" ∨ exif_option = "both" then camera_tags_exif else [])

/-- Result of `_strip_selected_exif`: the original byte string unchanged, a
re-serialized (`piexif.dump`) modified dictionary, or `None` (all EXIF
stripped). -/
inductive ExifResult where
  | originalBytes (d : ExifDict)
  | dumped (d : ExifDict)
  | stripped
deriving DecidableEq, Repr

/-- `_strip_selected_exif` (src/image_processing.py:177-330), on the path where
piexif is available and load/dump succeed.  The input `none` stands for
`exif_bytes` being `None` or empty.  Deleting each listed tag present in an
IFD (lines 272-288) is expressed as filtering the IFD's association list;
`modified` is true iff some listed tag was present. -/
def stripSelectedExif (exif_bytes : Option ExifDict) (exif_option : String) : ExifResult :=
  match exif_bytes with
  | none => .stripped
  | some d =>
    if exif_option = "keep" then .originalBytes d
    else if exif_option = "strip_all" then .stripped
    else
      let r0 := tags_to_remove_0th exif_option
      let rE := tags_to_remove_exif exif_option
      let modified :=
        d.zeroth.any (fun p => r0.contains p.1) || d.exifIFD.any (fun p => rE.contains p.1)
      if modified then
        .dumped ⟨d.zeroth.filter (fun p => !r0.contains p.1),
                 d.exifIFD.filter (fun p => !rE.contains p.1)⟩
      else .originalBytes d

/-- The tag sets the specification's words assign to the `date` policy
(spec §4.3: "date: DateTime/DateTimeOriginal/DateTimeDigitized/SubSec* tags"),
written from the spec for comparison with the source's lists. -/
def spec_date_tags_exif : List ℕ :=
  [ExifIFD_DateTimeOriginal, ExifIFD_DateTimeDigitized,
   ExifIFD_SubSecTime, ExifIFD_SubSecTimeOriginal, ExifIFD_SubSecTimeDigitized]

/-- The 0th-IFD tag set the specification's words assign to the `camera` policy
(spec §4.3: "camera: Make/Model/Software/ProcessingSoftware/LensMake/LensModel/
LensSpecification tags"), written from the spec for comparison with the
source's lists. -/
def spec_camera_tags_0th : List ℕ :=
  [ImageIFD_Make, ImageIFD_Model, ImageIFD_Software, ImageIFD_ProcessingSoftware]

/-- Claim C8's property at one EXIF block: the engine removes exactly the
spec's tag set for the policy (every spec-listed tag is absent from the
result), and when none of the spec-targeted tags are present the original
bytes come back unchanged. -/
def RemovesSpecTagSet (d : ExifDict) (exif_option : String) : Prop :=
  match stripSelectedExif (some d) exif_option with
  | .originalBytes d' =>
      d' = d ∧
      (exif_option = "date" ∨ exif_option = "both" →
        ∀ t ∈ spec_date_tags_exif, (d.exifIFD.filter (fun p => p.1 == t)) = [])
  | .dumped d' =>
      (exif_option = "date" ∨ exif_option = "both" →
        ∀ t ∈ spec_date_tags_exif, (d'.exifIFD.filter (fun p => p.1 == t)) = []) ∧
      (exif_option = "camera" ∨ exif_option = "both" →
        ∀ t ∈ spec_camera_tags_0th, (d'.zeroth.filter (fun p => p.1 == t)) = [])
  | .stripped => False

/-! ## Image Transform: JPEG flattening of alpha (src/image_processing.py:442-469, 639-652) -/

/-- An RGBA pixel; channels range over 0..255. -/
structure RGBA where
  r : ℕ
  g : ℕ
  b : ℕ
  a : ℕ
deriving DecidableEq, Repr

/-- An RGB pixel. -/
structure RGB where
  r : ℕ
  g : ℕ
  b : ℕ
deriving DecidableEq, Repr

/-- The flatten the source actually performs for JPEG saving:
`img_processed.convert("RGB")` at src/image_processing.py:457 (optimized) and
`img_low.convert("RGB")` at :645 (compressed).  Pillow's plain RGBA→RGB
convert discards the alpha channel and keeps the stored color channels (the
source's own comment at lines 452-456 calls this "Pillow's default
blend-to-black", which it equals for fully transparent dark pixels); the
white-background paste exists only as commented-out code at lines 453-455. -/
def convertRGB (p : RGBA) : RGB := ⟨p.r, p.g, p.b⟩

/-- Alpha compositing onto an opaque white background, then flattening —
written from the spec's words ("composite onto an opaque white background
before flattening to RGB", spec §4.4 step 5) for comparison with
`convertRGB`: out = (c·a + 255·(255 − a)) / 255 per channel. -/
def blendOverWhite (p : RGBA) : RGB :=
  ⟨(p.r * p.a + 255 * (255 - p.a)) / 255,
   (p.g * p.a + 255 * (255 - p.a)) / 255,
   (p.b * p.a + 255 * (255 - p.a)) / 255⟩

/-! ## Directory Structure Builder (src/filesystem.py:172-259) -/

/-- `folders_to_create` (src/filesystem.py:196-204): the folders
`create_output_structure` plans, as component lists relative to
`output_parent`.  The list is fixed; it does not depend on any settings. -/
def folders_to_create (shoot_name : String) : List (List String) :=
  [[shoot_name],
   [shoot_name, folderName "raw"],
   [shoot_name, folderName "export", folderName "export_originals"],
   [shoot_name, folderName "optimized", folderName "optimized_jpg"],
   [shoot_name, folderName "optimized", folderName "optimized_webp"],
   [shoot_name, folderName "compressed", folderName "compressed_jpg"],
   [shoot_name, folderName "compressed", folderName "compressed_webp"]]

/-- The directories `create_output_structure` actually creates
(src/filesystem.py:211-223): every planned folder when not dry-run, none in
dry-run.  The function's parameters are `(shoot_name, output_parent,
dry_run)` only — it receives no settings object and no has-RAW flag. -/
def create_output_structure (shoot_name : String) (dry_run : Bool) : List (List String) :=
  if dry_run then [] else folders_to_create shoot_name

/-- The RAW-folder condition claimed by the spec (§4.1: "Creates the RAW
folder only if include_raw is true AND has_raw_files is true AND RAW action
is copy/move"), written from the spec's words for comparison with the
source. -/
def specRawFolderCondition (include_raw has_raw_files : Bool) (raw_action : String) : Prop :=
  include_raw = true ∧ has_raw_files = true ∧ (raw_action = "copy" ∨ raw_action = "move")

/-! ## Archive Builder (src/filesystem.py:456-544) -/

/-- The environment one `create_zip_archive` call runs against.  The
emptiness pre-check (lines 490-497) is modelled as reading the folder's true
file list; `write_ok` is whether writing the archive (lines 504-522) raises;
`partial_exists` is whether a partial zip file is left behind by a failed
write (line 535); `cleanup_ok` is whether unlinking that partial file
succeeds (lines 536-541). -/
structure ZipEnv where
  is_dir : Bool
  files : List String
  write_ok : Bool
  partial_exists : Bool
  cleanup_ok : Bool

/-- What a `create_zip_archive` call produces: its boolean return value and
whether the partial-file cleanup was attempted.  The function always returns
a boolean — every exception, the cleanup's own failure included
(lines 539-541), is caught inside it. -/
structure ZipOutcome where
  ok : Bool
  cleanup_attempted : Bool
deriving DecidableEq, Repr

/-- `create_zip_archive` (src/filesystem.py:456-544): dry-run returns True
immediately (line 480); a missing source folder returns False (line 486); an
empty folder is a deliberate skip returning True (line 501); a successful
write returns True (line 522); any write failure falls through to the
cleanup block and returns False (line 544).  `cleanup_ok` is never consulted
for the result — a failed cleanup is caught and only logged. -/
def create_zip_archive (dry_run : Bool) (env : ZipEnv) : ZipOutcome :=
  if dry_run then ⟨true, false⟩
  else if !env.is_dir then ⟨false, false⟩
  else if env.files.isEmpty then ⟨true, false⟩
  else if env.write_ok then ⟨true, false⟩
  else ⟨false, env.partial_exists⟩

/-! ## Job Orchestrator: module resolution at the Scanning step (src/job.py:143-177) -/

/-- The module-level names bound in src/filesystem.py: the imports at lines
24-43 and the seven function definitions.  `gather_image_files` is defined
(line 262); no `scan_directory` is. -/
def filesystem_module_names : List String :=
  ["os", "shutil", "zipfile", "logging", "Path", "List", "config", "logger",
   "_get_top_level_readme_content", "_get_raw_readme_content",
   "create_output_structure", "gather_image_files",
   "rename_files_in_folder", "rename_processed_files", "create_zip_archive"]

/-- How far `PhotoPackagerJob.run` gets before image work starts. -/
inductive RunStartOutcome where
  | raisesFileNotFound
  | raisesAttributeErrorAtScan
  | proceedsPastScan
deriving DecidableEq, Repr

/-- `PhotoPackagerJob.run` from path validation to the Scanning step
(src/job.py:154-167): a missing source directory raises FileNotFoundError
(lines 156-158); otherwise the call `filesystem.scan_directory(...)`
(line 167) first resolves the attribute `scan_directory` on the imported
filesystem module, and a name the module does not bind raises
AttributeError before anything later in `run` executes. -/
def runUpToScan (src_is_dir : Bool) (module_names : List String) : RunStartOutcome :=
  if !src_is_dir then .raisesFileNotFound
  else if module_names.contains "scan_directory" then .proceedsPastScan
  else .raisesAttributeErrorAtScan

/-! ## Job Orchestrator: the body of `run` after scanning (src/job.py:169-493)

`filesystem.scan_directory` does not exist in src/ (only its call site does),
so the scan itself is spec-modelled; everything downstream of it is
translated from src/job.py.
-/

/-- A Python value returned by a worker's `generated_count`: an int or None. -/
inductive PyVal where
  | none
  | int (n : ℤ)
deriving DecidableEq, Repr

/-- The value `process_image` hands back on success
(src/image_processing.py:336-342 and every return in its body): the function
is annotated `-> None` and all its return statements are bare, so the
`generated_count` received by `process_and_report` (src/job.py:107-114) is
None. -/
def process_image_result : PyVal := .none

/-- Python's `x + v` for an int x: adding None raises TypeError, modelled as
`Option.none`. -/
def pyAddInt (x : ℤ) (v : PyVal) : Option ℤ :=
  match v with
  | .int n => some (x + n)
  | .none => Option.none

/-- The summary counters the serial loop touches. -/
structure LoopCounts where
  processed : ℕ
  generated : ℤ
  errors : ℕ
deriving DecidableEq, Repr

/-- One iteration of the serial processing loop (src/job.py:271-281 with
`log_result`, lines 253-266): an errored image increments
`error_files_count`; a successful image increments `processed_files_count`
(line 263) and then attempts `generated_files_count += generated_count`
(line 264) with `generated_count = process_image_result`; the TypeError this
raises escapes `log_result` and is absorbed by the loop's `except`
(lines 278-279), leaving `generated_files_count` unchanged. -/
def logResultStep (c : LoopCounts) (is_error : Bool) : LoopCounts :=
  if is_error then { c with errors := c.errors + 1 }
  else
    match pyAddInt c.generated process_image_result with
    | some g => { processed := c.processed + 1, generated := g, errors := c.errors }
    | Option.none => { c with processed := c.processed + 1 }

/-- The counters after the serial loop has consumed every per-image outcome
(`true` = that image errored). -/
def serialLoopCounts (outcomes : List Bool) : LoopCounts :=
  outcomes.foldl logResultStep ⟨0, 0, 0⟩

/-- C6: for every luminance standard deviation and every base quality in
[0, 100], `_compute_adaptive_quality` returns clamp(base + offset, 30, 95)
with offset −10 below stddev 30, +5 above stddev 60 and 0 otherwise; in
particular the result always lies in [30, 95]. -/
theorem adaptive_quality_bands_and_bounds (stddev : ℚ) (base : ℤ)
    (hb0 : 0 ≤ base) (hb1 : base ≤ 100) :
    (30 ≤ computeAdaptiveQuality stddev base ∧ computeAdaptiveQuality stddev base ≤ 95) ∧
    (stddev < 30 → computeAdaptiveQuality stddev base = max 30 (min 95 (base - 10))) ∧
    (60 < stddev → computeAdaptiveQuality stddev base = max 30 (min 95 (base + 5))) ∧
    (30 ≤ stddev → stddev ≤ 60 → computeAdaptiveQuality stddev base = max 30 (min 95 base)) := by
  simp only [computeAdaptiveQuality]
  refine ⟨?_, ?_, ?_, ?_⟩
  · split_ifs <;>
      exact ⟨le_max_left _ _, max_le (by norm_num) (min_le_left _ _)⟩
  · intro h
    rw [if_pos h, sub_eq_add_neg]
  · intro h
    rw [if_neg (not_lt.mpr (le_trans (by norm_num) h.le)), if_pos h]
  · intro h1 h2
    rw [if_neg (not_lt.mpr h1), if_neg (not_lt.mpr h2), add_zero]

/-- Witness for `adaptive_quality_bands_and_bounds` at stddev 50, base 60. -/
theorem adaptive_quality_bands_and_bounds_witness :
    (0 ≤ (60 : ℤ) ∧ (60 : ℤ) ≤ 100) ∧
    (30 ≤ computeAdaptiveQuality 50 60 ∧ computeAdaptiveQuality 50 60 ≤ 95) :=
  ⟨⟨by decide, by decide⟩,
   (adaptive_quality_bands_and_bounds 50 60 (by decide) (by decide)).1⟩

/-- C8 counterexample: an EXIF block whose only tag is SubSecTime, under the
`date` policy.  The claim says the SubSec* tags are removed; the code's tag
lists do not contain them (they sit in a comment at
src/image_processing.py:243), so the block comes back unchanged, SubSecTime
included. -/
theorem exif_spec_tagset_refuted_cx :
    ExifIFD_SubSecTime ∈ spec_date_tags_exif ∧
    ¬ RemovesSpecTagSet ⟨[], [(ExifIFD_SubSecTime, 1)]⟩ "date" := by
  refine ⟨by decide, ?_⟩
  intro hc
  have h : stripSelectedExif (some ⟨[], [(ExifIFD_SubSecTime, 1)]⟩) "date" =
      .originalBytes ⟨[], [(ExifIFD_SubSecTime, 1)]⟩ := by decide
  simp only [RemovesSpecTagSet, h] at hc
  have := hc.2 (by simp) ExifIFD_SubSecTime (by decide)
  exact absurd this (by decide)

/-- C8 amended: when piexif is available and the policy is `date`, `camera`
or `both`, `_strip_selected_exif` removes exactly the code's fixed tag lists
— date: DateTime (0th), DateTimeOriginal, DateTimeDigitized (Exif);
camera: Make, Model, Software (0th), LensMake, LensModel, LensSpecification
(Exif) — with the SubSec* tags and ProcessingSoftware NOT targeted; if none
of the targeted tags are present the original bytes come back unchanged, and
this path never fully strips the block. -/
theorem exif_partial_strip_exact (d : ExifDict) (opt : String)
    (hopt : opt = "date" ∨ opt = "camera" ∨ opt = "both") :
    ((∀ p ∈ d.zeroth, p.1 ∉ tags_to_remove_0th opt) →
     (∀ p ∈ d.exifIFD, p.1 ∉ tags_to_remove_exif opt) →
        stripSelectedExif (some d) opt = .originalBytes d) ∧
    (∀ d', stripSelectedExif (some d) opt = .dumped d' →
        (∀ t v, (t, v) ∈ d'.zeroth ↔ (t, v) ∈ d.zeroth ∧ t ∉ tags_to_remove_0th opt) ∧
        (∀ t v, (t, v) ∈ d'.exifIFD ↔ (t, v) ∈ d.exifIFD ∧ t ∉ tags_to_remove_exif opt)) ∧
    stripSelectedExif (some d) opt ≠ .stripped ∧
    ExifIFD_SubSecTime ∉ tags_to_remove_exif opt ∧
    ExifIFD_SubSecTimeOriginal ∉ tags_to_remove_exif opt ∧
    ExifIFD_SubSecTimeDigitized ∉ tags_to_remove_exif opt ∧
    ImageIFD_ProcessingSoftware ∉ tags_to_remove_0th opt := by
  have hkeep : opt ≠ "keep" := by rcases hopt with h | h | h <;> subst h <;> decide
  have hstrip : opt ≠ "strip_all" := by rcases hopt with h | h | h <;> subst h <;> decide
  have hfilter : ∀ (l : List (ℕ × ℕ)) (r : List ℕ) (t v : ℕ),
      (t, v) ∈ l.filter (fun p => !r.contains p.1) ↔ (t, v) ∈ l ∧ t ∉ r := by
    intro l r t v
    simp only [List.mem_filter, Bool.not_eq_true']
    constructor <;> rintro ⟨h1, h2⟩ <;> exact ⟨h1, by simpa using h2⟩
  refine ⟨?_, ?_, ?_, ?_, ?_, ?_, ?_⟩
  · intro h0 hE
    simp only [stripSelectedExif, if_neg hkeep, if_neg hstrip]
    have hmod : (d.zeroth.any (fun p => (tags_to_remove_0th opt).contains p.1) ||
        d.exifIFD.any (fun p => (tags_to_remove_exif opt).contains p.1)) = false := by
      rw [Bool.or_eq_false_iff]
      constructor <;> rw [List.any_eq_false] <;> intro p hp <;>
        simp only [Bool.not_eq_true, Bool.not_eq_true']
      · rw [← Bool.not_eq_true]
        intro hc
        exact h0 p hp (List.elem_iff.mp (by simpa using hc))
      · rw [← Bool.not_eq_true]
        intro hc
        exact hE p hp (List.elem_iff.mp (by simpa using hc))
    rw [hmod]
    rfl
  · intro d' hd'
    simp only [stripSelectedExif, if_neg hkeep, if_neg hstrip] at hd'
    by_cases hmod : (d.zeroth.any (fun p => (tags_to_remove_0th opt).contains p.1) ||
        d.exifIFD.any (fun p => (tags_to_remove_exif opt).contains p.1)) = true
    · rw [if_pos hmod] at hd'
      cases hd'
      exact ⟨fun t v => hfilter d.zeroth (tags_to_remove_0th opt) t v,
             fun t v => hfilter d.exifIFD (tags_to_remove_exif opt) t v⟩
    · rw [if_neg hmod] at hd'
      exact absurd hd' (by simp)
  · simp only [stripSelectedExif, if_neg hkeep, if_neg hstrip]
    split <;> simp
  · rcases hopt with h | h | h <;> subst h <;> decide
  · rcases hopt with h | h | h <;> subst h <;> decide
  · rcases hopt with h | h | h <;> subst h <;> decide
  · rcases hopt with h | h | h <;> subst h <;> decide

/-- Witness for `exif_partial_strip_exact`: a block holding only the DateTime
tag, under the `date` policy. -/
theorem exif_partial_strip_exact_witness :
    ("date" = "date" ∨ "date" = "camera" ∨ "date" = "both") ∧
    stripSelectedExif (some ⟨[(ImageIFD_DateTime, 5)], []⟩) "date" ≠ .stripped :=
  ⟨Or.inl rfl,
   (exif_partial_strip_exact ⟨[(ImageIFD_DateTime, 5)], []⟩ "date" (Or.inl rfl)).2.2.1⟩

/-- C1: for every job whose source folder is an existing directory, `run`
raises AttributeError at the Scanning step — src/filesystem.py defines
`gather_image_files` but no `scan_directory` — so no such run ever proceeds
past scanning to structure building, image processing, or a returned
summary. -/
theorem run_valid_source_raises_attribute_error (src_is_dir : Bool)
    (h : src_is_dir = true) :
    runUpToScan src_is_dir filesystem_module_names = .raisesAttributeErrorAtScan ∧
    runUpToScan src_is_dir filesystem_module_names ≠ .proceedsPastScan ∧
    filesystem_module_names.contains "gather_image_files" = true ∧
    filesystem_module_names.contains "scan_directory" = false := by
  subst h
  decide

/-- Witness for `run_valid_source_raises_attribute_error` at an existing
source directory. -/
theorem run_valid_source_raises_attribute_error_witness :
    true = true ∧
    runUpToScan true filesystem_module_names = .raisesAttributeErrorAtScan :=
  ⟨rfl, (run_valid_source_raises_attribute_error true rfl).1⟩

/-- C2 counterexample: a fully transparent black pixel.  The claim says the
flattened pixel equals the alpha-blend-over-white result (255, 255, 255);
the code's plain convert (src/image_processing.py:457, 645 — the white
composite is only commented out at 453-455) yields (0, 0, 0). -/
theorem jpeg_flatten_not_white_composite_cx :
    convertRGB ⟨0, 0, 0, 0⟩ ≠ blendOverWhite ⟨0, 0, 0, 0⟩ ∧
    convertRGB ⟨0, 0, 0, 0⟩ = ⟨0, 0, 0⟩ ∧
    blendOverWhite ⟨0, 0, 0, 0⟩ = ⟨255, 255, 255⟩ := by
  decide

/-- C2 amended: before a JPEG save of an alpha image the transform performs a
plain RGB convert, which keeps the stored color channels and does not
composite onto white; a fully transparent pixel keeps its stored color
(blend-over-black for black-backed data) and, unless that color is already
white, differs from the blend-over-white result. -/
theorem jpeg_flatten_plain_convert (p : RGBA) (ha : p.a = 0) :
    convertRGB p = ⟨p.r, p.g, p.b⟩ ∧
    blendOverWhite p = ⟨255, 255, 255⟩ ∧
    (p.r < 255 → convertRGB p ≠ blendOverWhite p) := by
  refine ⟨rfl, ?_, ?_⟩
  · simp [blendOverWhite, ha]
  · intro hr hcontra
    rw [show convertRGB p = ⟨p.r, p.g, p.b⟩ from rfl] at hcontra
    have hwhite : blendOverWhite p = ⟨255, 255, 255⟩ := by simp [blendOverWhite, ha]
    rw [hwhite] at hcontra
    have : p.r = 255 := congrArg RGB.r hcontra
    omega

/-- Witness for `jpeg_flatten_plain_convert` at the fully transparent black
pixel. -/
theorem jpeg_flatten_plain_convert_witness :
    (RGBA.mk 0 0 0 0).a = 0 ∧
    blendOverWhite ⟨0, 0, 0, 0⟩ = ⟨255, 255, 255⟩ :=
  ⟨rfl, (jpeg_flatten_plain_convert ⟨0, 0, 0, 0⟩ rfl).2.1⟩

/-- C4 counterexample: with `include_raw` false (and no RAW files, RAW action
`leave`) the spec's RAW-folder condition fails, yet the RAW folder is in the
set of directories a non-dry-run `create_output_structure` creates — the
builder takes no such settings and always creates it
(src/filesystem.py:196-204, 211-223). -/
theorem raw_folder_created_unconditionally_cx :
    (["Shoot", folderName "raw"] ∈ create_output_structure "Shoot" false) ∧
    ¬ specRawFolderCondition false false "leave" := by
  constructor
  · decide
  · rintro ⟨h, -, -⟩
    exact absurd h (by decide)

/-- C4 amended: `create_output_structure` takes only shoot name, output
parent and the dry-run flag, and the RAW folder is always among the planned
folders; it is created exactly when the run is not a dry run, regardless of
include_raw, has_raw_files or the RAW action. -/
theorem raw_folder_always_in_structure (shoot_name : String) (dry_run : Bool) :
    ([shoot_name, folderName "raw"] ∈ folders_to_create shoot_name) ∧
    ([shoot_name, folderName "raw"] ∈ create_output_structure shoot_name dry_run ↔
      dry_run = false) := by
  constructor
  · simp [folders_to_create]
  · cases dry_run <;> simp [create_output_structure, folders_to_create]

/-- C9: `create_zip_archive` returns True exactly when dry-run is active, or
the folder exists and holds no files, or the archive write succeeds; every
write failure yields False with the partial-file cleanup attempted whenever
a partial file exists; and the result never depends on whether that cleanup
itself succeeds (its failure is caught inside the function). -/
theorem create_zip_archive_result_spec (dry_run : Bool) (env : ZipEnv) :
    ((create_zip_archive dry_run env).ok = true ↔
      (dry_run = true ∨ (env.is_dir = true ∧ env.files = []) ∨
       (env.is_dir = true ∧ env.files ≠ [] ∧ env.write_ok = true))) ∧
    (dry_run = false → env.is_dir = true → env.files ≠ [] → env.write_ok = false →
      create_zip_archive dry_run env = ⟨false, env.partial_exists⟩) ∧
    (∀ c : Bool, create_zip_archive dry_run { env with cleanup_ok := c } =
      create_zip_archive dry_run env) := by
  obtain ⟨isd, files, wok, pex, cok⟩ := env
  refine ⟨?_, ?_, ?_⟩
  · cases dry_run <;> cases isd <;> cases wok <;>
      by_cases hf : files = [] <;>
      simp [create_zip_archive, List.isEmpty_iff, hf]
  · intro hdr hisd hne hwok
    subst hdr; subst hisd; subst hwok
    simp [create_zip_archive, List.isEmpty_iff, hne]
  · intro c
    rfl

/-- Witness for `create_zip_archive_result_spec`: a real (non-dry) call on an
existing, non-empty folder whose write fails with a partial file left
behind. -/
theorem create_zip_archive_result_spec_witness :
    (false = false ∧ true = true ∧ (["a"] : List String) ≠ [] ∧ false = false) ∧
    create_zip_archive false ⟨true, ["a"], false, true, false⟩ =
      ⟨false, true⟩ :=
  ⟨⟨rfl, rfl, by decide, rfl⟩,
   (create_zip_archive_result_spec false ⟨true, ["a"], false, true, false⟩).2.1
     rfl rfl (by decide) rfl⟩

/-- Counter bookkeeping of the serial loop, from any starting counters. -/
theorem serialLoop_foldl_spec (outcomes : List Bool) (c : LoopCounts) :
    outcomes.foldl logResultStep c =
      { processed := c.processed + (outcomes.filter (fun e => !e)).length,
        generated := c.generated,
        errors := c.errors + (outcomes.filter (fun e => e)).length } := by
  induction outcomes generalizing c with
  | nil => simp
  | cons head tail ih =>
    cases head <;>
      simp [List.foldl, logResultStep, pyAddInt, process_image_result, ih, List.filter] <;>
      omega

/-- C10: `process_image` returns None on every path, so the
`generated_count` handed back for a successful image is None, the attempted
`generated_files_count += generated_count` raises TypeError (absorbed per
image by the serial loop after `processed_files_count` was already
incremented), and across the whole loop `generated_files_count` stays 0
while `processed_files_count` counts the successes and `error_files_count`
the failures. -/
theorem process_image_none_generated_count (outcomes : List Bool) :
    process_image_result = PyVal.none ∧
    pyAddInt (serialLoopCounts outcomes).generated process_image_result = Option.none ∧
    (serialLoopCounts outcomes).generated = 0 ∧
    (serialLoopCounts outcomes).processed = (outcomes.filter (fun e => !e)).length ∧
    (serialLoopCounts outcomes).errors = (outcomes.filter (fun e => e)).length := by
  have h := serialLoop_foldl_spec outcomes ⟨0, 0, 0⟩
  refine ⟨rfl, ?_, ?_, ?_, ?_⟩ <;>
    simp [serialLoopCounts, h, pyAddInt, process_image_result]

/-! ## Image Transform: compressed-variant resize (src/image_processing.py:596-634) -/

/-- The compressed-variant resize decision (src/image_processing.py:596-634),
as a relation, the scale factor being the real square root the source
computes in floating point: `needs_resize = current_pixels > target_pixels`
(line 601); when resizing, `scale_factor = sqrt(target_pixels /
current_pixels)` (line 606) and `new_w = max(1, int(w * scale_factor))`,
`new_h = max(1, int(h * scale_factor))` (lines 608-609; `int` truncates the
nonnegative float, i.e. takes the floor); otherwise the dimensions are left
unchanged (line 600). -/
def CompressedResizeRel (w h T : ℕ) (nw nh : ℤ) : Prop :=
  (w * h ≤ T ∧ nw = w ∧ nh = h) ∨
  (T < w * h ∧
    nw = max 1 ⌊(w : ℝ) * Real.sqrt ((T : ℝ) / ((w : ℝ) * (h : ℝ)))⌋ ∧
    nh = max 1 ⌊(h : ℝ) * Real.sqrt ((T : ℝ) / ((w : ℝ) * (h : ℝ)))⌋)

/-- `max 1 ⌊x⌋` stays within one unit of a nonnegative `x`. -/
theorem floor_clamp_bounds (x : ℝ) (hx : 0 ≤ x) :
    x - 1 < ((max 1 ⌊x⌋ : ℤ) : ℝ) ∧ ((max 1 ⌊x⌋ : ℤ) : ℝ) ≤ x + 1 := by
  rcases le_or_lt 1 ⌊x⌋ with hfl | hfl
  · rw [max_eq_right hfl]
    exact ⟨Int.sub_one_lt_floor x, by linarith [Int.floor_le x]⟩
  · rw [max_eq_left hfl.le]
    have h1 : x < 1 := by
      have h0 : ⌊x⌋ ≤ 0 := by omega
      have := Int.lt_floor_add_one x
      have : x < (⌊x⌋ : ℝ) + 1 := this
      have hc : ((⌊x⌋ : ℤ) : ℝ) ≤ 0 := by exact_mod_cast h0
      linarith
    push_cast
    constructor <;> linarith

/-- C7: when the pixel area is at or below the target the image is used
unresized; when it exceeds the target, the dimensions produced with scale
factor sqrt(target/current area) are at least 1, preserve the aspect ratio
within integer rounding (|new_w·h − new_h·w| < w + h), and — whenever
neither floored dimension needed the clamp to 1 — their product does not
exceed the target pixel count. -/
theorem compressed_resize_aspect_and_area (w h T : ℕ) (nw nh : ℤ)
    (hw : 0 < w) (hh : 0 < h)
    (hrel : CompressedResizeRel w h T nw nh) :
    (w * h ≤ T → nw = w ∧ nh = h) ∧
    (T < w * h →
      1 ≤ nw ∧ 1 ≤ nh ∧
      |nw * (h : ℤ) - nh * (w : ℤ)| < (w : ℤ) + (h : ℤ) ∧
      ((1 : ℝ) ≤ (w : ℝ) * Real.sqrt ((T : ℝ) / ((w : ℝ) * (h : ℝ))) →
       (1 : ℝ) ≤ (h : ℝ) * Real.sqrt ((T : ℝ) / ((w : ℝ) * (h : ℝ))) →
       nw * nh ≤ (T : ℤ))) := by
  set s : ℝ := Real.sqrt ((T : ℝ) / ((w : ℝ) * (h : ℝ))) with hs_def
  have hwR : (0 : ℝ) < (w : ℝ) := by exact_mod_cast hw
  have hhR : (0 : ℝ) < (h : ℝ) := by exact_mod_cast hh
  have hs0 : 0 ≤ s := Real.sqrt_nonneg _
  rcases hrel with ⟨hle, hnw, hnh⟩ | ⟨hlt, hnw, hnh⟩
  · exact ⟨fun _ => ⟨hnw, hnh⟩, fun hlt => absurd hlt (not_lt.mpr hle)⟩
  · refine ⟨fun hle => absurd hlt (not_lt.mpr hle), fun _ => ?_⟩
    have hA0 : 0 ≤ (w : ℝ) * s := mul_nonneg hwR.le hs0
    have hB0 : 0 ≤ (h : ℝ) * s := mul_nonneg hhR.le hs0
    obtain ⟨hAl, hAu⟩ := floor_clamp_bounds ((w : ℝ) * s) hA0
    obtain ⟨hBl, hBu⟩ := floor_clamp_bounds ((h : ℝ) * s) hB0
    rw [← hnw] at hAl hAu
    rw [← hnh] at hBl hBu
    have key : ((w : ℝ) * s) * (h : ℝ) = ((h : ℝ) * s) * (w : ℝ) := by ring
    refine ⟨?_, ?_, ?_, ?_⟩
    · rw [hnw]; exact le_max_left _ _
    · rw [hnh]; exact le_max_left _ _
    · rw [abs_lt]
      constructor
      · have hr : -((w : ℝ) + (h : ℝ)) < (nw : ℝ) * (h : ℝ) - (nh : ℝ) * (w : ℝ) := by
          have e1 := mul_lt_mul_of_pos_right hAl hhR
          have e2 := mul_le_mul_of_nonneg_right hBu hwR.le
          linarith [key, e1, e2]
        exact_mod_cast hr
      · have hr : (nw : ℝ) * (h : ℝ) - (nh : ℝ) * (w : ℝ) < (w : ℝ) + (h : ℝ) := by
          have e1 := mul_le_mul_of_nonneg_right hAu hhR.le
          have e2 := mul_lt_mul_of_pos_right hBl hwR
          linarith [key, e1, e2]
        exact_mod_cast hr
    · intro h1A h1B
      have hfloorA : (1 : ℤ) ≤ ⌊(w : ℝ) * s⌋ := by
        rw [Int.le_floor]; exact_mod_cast h1A
      have hfloorB : (1 : ℤ) ≤ ⌊(h : ℝ) * s⌋ := by
        rw [Int.le_floor]; exact_mod_cast h1B
      have hnw' : nw = ⌊(w : ℝ) * s⌋ := by rw [hnw, max_eq_right hfloorA]
      have hnh' : nh = ⌊(h : ℝ) * s⌋ := by rw [hnh, max_eq_right hfloorB]
      have hAle : ((nw : ℤ) : ℝ) ≤ (w : ℝ) * s := by rw [hnw']; exact Int.floor_le _
      have hBle : ((nh : ℤ) : ℝ) ≤ (h : ℝ) * s := by rw [hnh']; exact Int.floor_le _
      have hnh0 : (0 : ℝ) ≤ ((nh : ℤ) : ℝ) := by
        have h1 : (1 : ℤ) ≤ nh := by rw [hnh]; exact le_max_left _ _
        have : (0 : ℤ) ≤ nh := by omega
        exact_mod_cast this
      have hs2 : s ^ 2 = (T : ℝ) / ((w : ℝ) * (h : ℝ)) := Real.sq_sqrt (by positivity)
      have hABT : ((w : ℝ) * s) * ((h : ℝ) * s) = (T : ℝ) := by
        have hwh : (w : ℝ) * (h : ℝ) ≠ 0 := by positivity
        calc ((w : ℝ) * s) * ((h : ℝ) * s) = ((w : ℝ) * (h : ℝ)) * s ^ 2 := by ring
          _ = ((w : ℝ) * (h : ℝ)) * ((T : ℝ) / ((w : ℝ) * (h : ℝ))) := by rw [hs2]
          _ = (T : ℝ) := by field_simp
      have hprod : ((nw * nh : ℤ) : ℝ) ≤ (T : ℝ) := by
        push_cast
        calc (nw : ℝ) * (nh : ℝ) ≤ ((w : ℝ) * s) * ((h : ℝ) * s) :=
              mul_le_mul hAle hBle hnh0 hA0
          _ = (T : ℝ) := hABT
      exact_mod_cast hprod

/-- Witness for `compressed_resize_aspect_and_area`: a 2×2 image against a
1-pixel target, where the scale factor is exactly 1/2 and the resized
dimensions are (1, 1). -/
theorem compressed_resize_aspect_and_area_witness :
    CompressedResizeRel 2 2 1 1 1 ∧
    (1 ≤ (1 : ℤ) ∧ (1 : ℤ) * 1 ≤ ((1 : ℕ) : ℤ)) := by
  have hsqrt : Real.sqrt (((1 : ℕ) : ℝ) / (((2 : ℕ) : ℝ) * ((2 : ℕ) : ℝ))) = 1 / 2 := by
    rw [show ((1 : ℕ) : ℝ) / (((2 : ℕ) : ℝ) * ((2 : ℕ) : ℝ)) = (1 / 2 : ℝ) ^ 2 by norm_num]
    exact Real.sqrt_sq (by norm_num)
  have hfloor : ⌊((2 : ℕ) : ℝ) * Real.sqrt (((1 : ℕ) : ℝ) / (((2 : ℕ) : ℝ) * ((2 : ℕ) : ℝ)))⌋ =
      (1 : ℤ) := by
    rw [hsqrt, show ((2 : ℕ) : ℝ) * (1 / 2 : ℝ) = 1 by norm_num]
    exact Int.floor_one
  have hrel : CompressedResizeRel 2 2 1 1 1 := by
    right
    refine ⟨by norm_num, ?_, ?_⟩ <;> rw [hfloor] <;> norm_num
  have hs1 : (1 : ℝ) ≤ ((2 : ℕ) : ℝ) *
      Real.sqrt (((1 : ℕ) : ℝ) / (((2 : ℕ) : ℝ) * ((2 : ℕ) : ℝ))) := by
    rw [hsqrt]; norm_num
  have hmain :=
    (compressed_resize_aspect_and_area 2 2 1 1 1 (by norm_num) (by norm_num) hrel).2
      (by norm_num)
  exact ⟨hrel, hmain.1, hmain.2.2.2 hs1 hs1⟩

end PhotoPackager
